import Mathlib

/-!
Shallow embedding of the SoundHire availability/pricing core
(`soundhire/availability.py` and the parts of `soundhire/models.py` it
uses: `get_bookings_for_package` and `get_dj_rate`), together with proofs
of the spec's claims about it.

Modelling conventions:
* Python `float` currency amounts are modelled as `ℚ`; the claims are
  arithmetic identities that the code computes literally, so the rational
  model is faithful to the expressions the source evaluates.
* Calendar dates (`datetime.date`) are records of year/month/day; the
  proleptic-Gregorian ordinal `Date.toOrdinal` mirrors CPython's
  `date.toordinal`, so `(end - start).days = end.toOrdinal - start.toOrdinal`.
* `datetime.strptime(s, "%Y-%m-%d").date()` is modelled by `parseDate`:
  the `%Y` field is exactly four digits, `%m` and `%d` are one or two
  digits with values in range, and the `date` constructor validates the
  day against the month length and requires `year ≥ 1`.
* The Supabase store is a `Store` record holding the rows the core reads.
  Each modelled function also returns the list of database operations it
  issues (`DBOp`), in source order, so that read-only behaviour and
  "does not run this query" claims are expressible.
-/

namespace SoundHire

/-- Calendar date, as CPython's `datetime.date`: year, month, day. -/
structure Date where
  year : Nat
  month : Nat
  day : Nat
deriving DecidableEq, Repr

/-- Gregorian leap-year rule, as `calendar.isleap` / `datetime._is_leap`. -/
def isLeapYear (y : Nat) : Bool :=
  y % 4 == 0 && (y % 100 != 0 || y % 400 == 0)

/-- Number of days in month `m` of year `y` (`datetime._days_in_month`). -/
def daysInMonth (y m : Nat) : Nat :=
  if m = 2 then (if isLeapYear y then 29 else 28)
  else if m = 4 ∨ m = 6 ∨ m = 9 ∨ m = 11 then 30
  else 31

/-- Days in year `y` strictly before month `m` (`datetime._days_before_month`). -/
def daysBeforeMonth (y m : Nat) : Nat :=
  (List.range (m - 1)).foldl (fun acc i => acc + daysInMonth y (i + 1)) 0

/-- Proleptic Gregorian ordinal of a date, with day 1 = 0001-01-01, as
CPython's `date.toordinal` (`datetime._ymd2ord`).  All the subtractions
are exact because `365*y' + y'/4 ≥ y'/100`. -/
def Date.toOrdinal (dt : Date) : Nat :=
  let y := dt.year - 1
  365 * y + y / 4 - y / 100 + y / 400 + daysBeforeMonth dt.year dt.month + dt.day

/-- Date comparison used by the store's date columns: chronological order. -/
def Date.ble (a b : Date) : Bool :=
  a.toOrdinal ≤ b.toOrdinal

/-- Split a character list at every `'-'`, as `s.split("-")` does: the empty
string yields one empty field, and separators at the ends yield empty fields. -/
def splitDash : List Char → List (List Char)
  | [] => [[]]
  | c :: rest =>
    let r := splitDash rest
    if c = '-' then [] :: r
    else
      match r with
      | h :: t => (c :: h) :: t
      | [] => [[c]]

/-- Decimal value of a nonempty all-digit character list, `none` otherwise,
as `int(field)` on a `strptime`-matched group. -/
def digitsToNat? (cs : List Char) : Option Nat :=
  if cs ≠ [] ∧ cs.all Char.isDigit then
    some (cs.foldl (fun n c => n * 10 + (c.toNat - 48)) 0)
  else none

/-- Parse of `datetime.strptime(s, "%Y-%m-%d").date()`: three dash-separated
all-digit fields, `%Y` exactly four digits, `%m`/`%d` one or two digits with
values `1..12` and `1..31`, and the `date` constructor's validation
(`year ≥ 1`, `day ≤ daysInMonth`).  `none` models the raised `ValueError`. -/
def parseDate (s : String) : Option Date :=
  match splitDash s.data with
  | [ys, ms, ds] =>
    match digitsToNat? ys, digitsToNat? ms, digitsToNat? ds with
    | some y, some m, some d =>
      if ys.length = 4 ∧ ms.length ≤ 2 ∧ ds.length ≤ 2 ∧
         1 ≤ m ∧ m ≤ 12 ∧ 1 ≤ d ∧ d ≤ 31 ∧
         1 ≤ y ∧ d ≤ daysInMonth y m
      then some ⟨y, m, d⟩ else none
    | _, _, _ => none
  | _ => none

/-- Inclusive day count on parsed dates: `(end - start).days + 1`, floored
at 1, as the body of `calculate_rental_days` after the two `strptime` calls. -/
def rentalDaysOfDates (startD endD : Date) : Int :=
  max 1 ((endD.toOrdinal : Int) - (startD.toOrdinal : Int) + 1)

/-- `calculate_rental_days(start_date, end_date)` from
`soundhire/availability.py`: parse both strings (a failure raises, modelled
as `none`), then return `max(1, (end - start).days + 1)`. -/
def calculate_rental_days (start_date end_date : String) : Option Int :=
  match parseDate start_date, parseDate end_date with
  | some s, some e => some (rentalDaysOfDates s e)
  | _, _ => none

/-- Row of the `packages` table, restricted to the columns the core reads. -/
structure Package where
  id : Nat
  name : String
  daily_rate : ℚ
  stock : Nat
deriving DecidableEq, Repr

/-- Row of the `bookings` table, restricted to the columns the core reads.
The date columns are `date`-typed in the store, so they compare
chronologically. -/
structure Booking where
  package_id : Nat
  qty : Nat
  status : String
  start_date : Date
  end_date : Date
deriving DecidableEq, Repr

/-- The relational store as the core sees it: the `packages` and `bookings`
rows, and the `dj_daily_rate` of the singleton `settings` row (`id = 1`)
when that row exists. -/
structure Store where
  packages : List Package
  bookings : List Booking
  settings : Option ℚ
deriving DecidableEq, Repr

/-- One round trip to the store.  The three select variants are the reads the
availability/pricing core issues; `insertBooking` is the write issued by
`create_booking`, which the core never performs. -/
inductive DBOp where
  | selectPackage (pid : Nat)
  | selectBookings (pid : Nat) (startD endD : Date)
  | selectSettings
  | insertBooking (b : Booking)
deriving DecidableEq, Repr

/-- Effect of one operation on the store: selects leave it untouched,
`insertBooking` appends the new row. -/
def DBOp.apply : DBOp → Store → Store
  | .insertBooking b, st => { st with bookings := st.bookings ++ [b] }
  | _, st => st

/-- Whether an operation writes to the store. -/
def DBOp.isWrite : DBOp → Bool
  | .insertBooking _ => true
  | _ => false

/-- Run a list of operations against the store, in order. -/
def runOps (st : Store) (ops : List DBOp) : Store :=
  ops.foldl (fun s op => op.apply s) st

/-- Lookup modelling `client.table("packages").eq("id", package_id)` followed
by taking `data[0]` (`data` empty ↦ `none`). -/
def get_package (st : Store) (pid : Nat) : Option Package :=
  st.packages.find? (fun p => p.id == pid)

/-- `get_bookings_for_package(package_id, start_date, end_date)` from
`soundhire/models.py`: all bookings of the package whose status is not
`cancelled`, whose `start_date` is ≤ the requested end and whose `end_date`
is ≥ the requested start. -/
def get_bookings_for_package (st : Store) (pid : Nat) (startD endD : Date) :
    List Booking :=
  st.bookings.filter (fun b =>
    b.package_id == pid && b.status != "cancelled" &&
    b.start_date.ble endD && startD.ble b.end_date)

/-- `get_dj_rate()` from `soundhire/models.py`: the `dj_daily_rate` of the
settings row when present, `150.00` otherwise. -/
def get_dj_rate (st : Store) : ℚ :=
  match st.settings with
  | some r => r
  | none => 150

/-- Message for a missing package (used verbatim by both the availability
check and, as the `ValueError` payload, by pricing). -/
def notFoundMsg (pid : Nat) : String :=
  "Package " ++ toString pid ++ " not found"

/-- Message when the requested quantity exceeds total stock. -/
def exceedsStockMsg (qty stock : Nat) (name : String) : String :=
  "Requested quantity (" ++ toString qty ++ ") exceeds total stock (" ++
    toString stock ++ ") for " ++ name

/-- Message when the requested quantity exceeds what remains free. -/
def notEnoughMsg (name : String) (qty : Nat) (remaining : Int)
    (booked stock : Nat) : String :=
  "Not enough " ++ name ++ " available. You need: " ++ toString qty ++
    ", We have: " ++ toString remaining ++ " (already booked: " ++
    toString booked ++ "/" ++ toString stock ++ ")"

/-- Message when the package is available. -/
def availableMsg (name : String) (remaining : Int) (stock : Nat) : String :=
  name ++ " is available (" ++ toString remaining ++ " of " ++
    toString stock ++ " free for these dates)"

/-- Sum of the quantities of the overlapping non-cancelled bookings,
`sum(booking["qty"] for booking in overlapping_bookings)`. -/
def bookedQty (st : Store) (pid : Nat) (startD endD : Date) : Nat :=
  ((get_bookings_for_package st pid startD endD).map Booking.qty).sum

/-- `is_package_available(package_id, start_date, end_date, qty)` from
`soundhire/availability.py`, paired with the list of store operations it
issues in source order.  Python's unbounded ints make
`remaining = stock - booked_qty` an `Int`. -/
def is_package_available (st : Store) (pid : Nat) (startD endD : Date)
    (qty : Nat) : (Bool × String) × List DBOp :=
  match get_package st pid with
  | none => ((false, notFoundMsg pid), [.selectPackage pid])
  | some pkg =>
    if qty > pkg.stock then
      ((false, exceedsStockMsg qty pkg.stock pkg.name), [.selectPackage pid])
    else
      let booked := bookedQty st pid startD endD
      let remaining : Int := (pkg.stock : Int) - (booked : Int)
      if (qty : Int) > remaining then
        ((false, notEnoughMsg pkg.name qty remaining booked pkg.stock),
         [.selectPackage pid, .selectBookings pid startD endD])
      else
        ((true, availableMsg pkg.name remaining pkg.stock),
         [.selectPackage pid, .selectBookings pid startD endD])

/-- The breakdown dict built by `calculate_total_price`: it has exactly
these seven keys. -/
structure Breakdown where
  days : Int
  daily_rate : ℚ
  qty : Nat
  base_price : ℚ
  dj_rate : ℚ
  dj_price : ℚ
  total : ℚ
deriving DecidableEq, Repr

/-- `calculate_total_price(package_id, start_date, end_date, qty, include_dj)`
from `soundhire/availability.py`, paired with the store operations it issues.
A missing package raises `ValueError` (the `Except.error` branch); dates are
taken already parsed, as the store's date columns are.  The settings read
happens only inside `if include_dj`. -/
def calculate_total_price (st : Store) (pid : Nat) (startD endD : Date)
    (qty : Nat) (include_dj : Bool) :
    Except String (ℚ × Breakdown) × List DBOp :=
  match get_package st pid with
  | none => (.error (notFoundMsg pid), [.selectPackage pid])
  | some pkg =>
    let daily_rate := pkg.daily_rate
    let days := rentalDaysOfDates startD endD
    let base_price := daily_rate * (days : ℚ) * (qty : ℚ)
    if include_dj then
      let dj_rate := get_dj_rate st
      let dj_price := dj_rate * (days : ℚ) * (qty : ℚ)
      (.ok (base_price + dj_price,
            ⟨days, daily_rate, qty, base_price, dj_rate, dj_price,
             base_price + dj_price⟩),
       [.selectPackage pid, .selectSettings])
    else
      (.ok (base_price,
            ⟨days, daily_rate, qty, base_price, 0, 0, base_price⟩),
       [.selectPackage pid])

/-- Decimal digit character: `'0' + d % 10`. -/
def digitCh (d : Nat) : Char :=
  Char.ofNat (48 + d % 10)

/-- Decimal digits with explicit fuel, so that the recursion is structural
and the kernel can evaluate it.  `fuel ≥ n` suffices to never run dry. -/
def natDigitsAux : Nat → Nat → List Char
  | 0, n => [digitCh n]
  | fuel + 1, n =>
    if n < 10 then [digitCh n]
    else natDigitsAux fuel (n / 10) ++ [digitCh (n % 10)]

/-- Decimal digits of a natural number, most significant first, as Python's
`str` of a non-negative int. -/
def natDigits (n : Nat) : List Char :=
  natDigitsAux n n

/-- Two-digit zero-padded rendering of `m % 100`. -/
def pad2 (m : Nat) : String :=
  ⟨[digitCh (m / 10), digitCh m]⟩

/-- Cent count of a currency amount: `⌊q * 100 + 1 / 2⌋`, computed on the
reduced fraction so that the kernel can evaluate it. -/
def ratCents (q : ℚ) : Int :=
  let r := q * 100
  Int.fdiv (2 * r.num + (r.den : Int)) (2 * (r.den : Int))

/-- Two-decimal currency rendering, Python's `f"{x:.2f}"`: round to cents,
then print the cent count with a decimal point before the last two digits.
(The claims depend on the two-decimal shape, not the tie-breaking of the
rounding, so rounding half up stands in for the float path.) -/
def fmt2 (q : ℚ) : String :=
  let c := ratCents q
  let n : Nat := c.natAbs
  (if c < 0 then "-" else "") ++ ⟨natDigits (n / 100)⟩ ++ "." ++ pad2 (n % 100)

/-- The equipment line of `format_price_breakdown`. -/
def equipLine (b : Breakdown) : String :=
  "Equipment: $" ++ fmt2 b.daily_rate ++ "/day × " ++ toString b.days ++
    " days × " ++ toString b.qty ++ " qty = $" ++ fmt2 b.base_price

/-- The DJ-service line of `format_price_breakdown`. -/
def djLine (b : Breakdown) : String :=
  "DJ Service: $" ++ fmt2 b.dj_rate ++ "/day × " ++ toString b.days ++
    " days × " ++ toString b.qty ++ " qty = $" ++ fmt2 b.dj_price

/-- The total line of `format_price_breakdown`. -/
def totalLine (b : Breakdown) : String :=
  "Total: $" ++ fmt2 b.total

/-- `format_price_breakdown(breakdown)` from `soundhire/availability.py`:
the equipment line, then the DJ line only when `dj_price > 0`, then the
total line, joined with newlines. -/
def format_price_breakdown (b : Breakdown) : String :=
  let lines := [equipLine b]
  let lines := if b.dj_price > 0 then lines ++ [djLine b] else lines
  let lines := lines ++ [totalLine b]
  String.intercalate "\n" lines

/-- Property that a rendered string ends in a decimal point followed by
exactly two digits, with no other decimal point: the shape of a value
printed with `:.2f`. -/
def twoDecimalPlaces (s : String) : Prop :=
  ∃ pre m, m < 100 ∧ s = pre ++ "." ++ pad2 m ∧
    (pad2 m).data.length = 2 ∧ ∀ c ∈ pre.data, c ≠ '.'

/-- Example package used to instantiate the availability claims: stock 5. -/
def exPkg : Package := ⟨1, "PA System", 100, 5⟩

/-- Example store: one package with stock 5 and one fully overlapping
non-cancelled booking of quantity 3. -/
def exStore : Store :=
  ⟨[exPkg], [⟨1, 3, "confirmed", ⟨2025, 11, 9⟩, ⟨2025, 11, 13⟩⟩], none⟩

/-- Requested range start used by the examples. -/
def reqS : Date := ⟨2025, 11, 10⟩

/-- Requested range end used by the examples. -/
def reqE : Date := ⟨2025, 11, 12⟩

/-- Example package used to instantiate the pricing claims: daily rate 75. -/
def pkg75 : Package := ⟨2, "Party Pack", 75, 4⟩

/-- Example store for pricing: DJ rate set to 150. -/
def store75 : Store := ⟨[pkg75], [], some 150⟩

/-- A cancelled booking overlapping the example request. -/
def cancelledBooking : Booking := ⟨1, 5, "cancelled", reqS, reqE⟩

/-- A non-cancelled booking that ends before 2025-11-06. -/
def earlyBooking : Booking := ⟨1, 2, "pending", ⟨2025, 11, 1⟩, ⟨2025, 11, 5⟩⟩

/-- Example store holding the cancelled and the early booking. -/
def exStore3 : Store := ⟨[exPkg], [cancelledBooking, earlyBooking], none⟩

/-- The empty store: no packages, no bookings, no settings row. -/
def emptyStore : Store := ⟨[], [], none⟩

theorem digitCh_ne_dot (d : Nat) : digitCh d ≠ '.' := by
  unfold digitCh
  have h : d % 10 < 10 := Nat.mod_lt _ (by norm_num)
  set k := d % 10 with hk
  interval_cases k <;> decide

theorem mem_natDigitsAux_ne_dot (fuel : Nat) :
    ∀ n, ∀ c ∈ natDigitsAux fuel n, c ≠ '.' := by
  induction fuel with
  | zero =>
    intro n c hc
    simp only [natDigitsAux, List.mem_singleton] at hc
    subst hc
    exact digitCh_ne_dot n
  | succ fuel ih =>
    intro n c hc
    simp only [natDigitsAux] at hc
    split at hc
    · simp only [List.mem_singleton] at hc
      subst hc
      exact digitCh_ne_dot n
    · rcases List.mem_append.mp hc with h | h
      · exact ih _ c h
      · simp only [List.mem_singleton] at h
        subst h
        exact digitCh_ne_dot _

theorem fmt2_twoDecimalPlaces (q : ℚ) : twoDecimalPlaces (fmt2 q) := by
  refine ⟨(if ratCents q < 0 then "-" else "") ++
            ⟨natDigits ((ratCents q).natAbs / 100)⟩,
          (ratCents q).natAbs % 100, Nat.mod_lt _ (by norm_num), rfl, rfl, ?_⟩
  intro c hc
  rw [String.data_append] at hc
  rcases List.mem_append.mp hc with h | h
  · split at h <;> simp_all
  · exact mem_natDigitsAux_ne_dot _ _ c h

/-- C2: for valid date strings, `calculate_rental_days` is the inclusive day
count `(end − start) + 1` whenever `start ≤ end`, and its result is never
below 1, even on a reversed range. -/
theorem rental_days_inclusive_count (s e : String) (ds de : Date)
    (hs : parseDate s = some ds) (he : parseDate e = some de) :
    calculate_rental_days s e = some (rentalDaysOfDates ds de) ∧
    (ds.toOrdinal ≤ de.toOrdinal →
      calculate_rental_days s e =
        some ((de.toOrdinal : Int) - (ds.toOrdinal : Int) + 1)) ∧
    (∀ n, calculate_rental_days s e = some n → 1 ≤ n) := by
  have hval : calculate_rental_days s e = some (rentalDaysOfDates ds de) := by
    unfold calculate_rental_days
    rw [hs, he]
  refine ⟨hval, ?_, ?_⟩
  · intro h
    rw [hval]
    unfold rentalDaysOfDates
    rw [max_eq_right
      (by omega : (1 : Int) ≤ (de.toOrdinal : Int) - (ds.toOrdinal : Int) + 1)]
  · intro n hn
    rw [hval] at hn
    obtain rfl : rentalDaysOfDates ds de = n := by injection hn
    exact le_max_left 1 _

/-- C2 witness: the spec's concrete instances, including a reversed range. -/
theorem rental_days_inclusive_count_witness :
    parseDate "2025-11-10" = some ⟨2025, 11, 10⟩ ∧
    calculate_rental_days "2025-11-10" "2025-11-12" = some 3 ∧
    calculate_rental_days "2025-11-10" "2025-11-10" = some 1 ∧
    calculate_rental_days "2025-11-12" "2025-11-10" = some 1 := by
  have h := rental_days_inclusive_count "2025-11-10" "2025-11-12"
    ⟨2025, 11, 10⟩ ⟨2025, 11, 12⟩ rfl rfl
  have h12 := h.2.1 (by decide)
  refine ⟨rfl, ?_, by decide, by decide⟩
  rw [h12]
  decide

/-- C4: pricing a missing package is a raised domain error, while the
availability check on the same identifier returns `(false, not-found)`
without raising. -/
theorem missing_package_asymmetry (st : Store) (pid qty : Nat)
    (startD endD : Date) (include_dj : Bool)
    (hnone : get_package st pid = none) :
    (calculate_total_price st pid startD endD qty include_dj).1 =
      .error (notFoundMsg pid) ∧
    (is_package_available st pid startD endD qty).1 =
      (false, notFoundMsg pid) := by
  unfold calculate_total_price is_package_available
  rw [hnone]
  exact ⟨rfl, rfl⟩

/-- C4 witness: package 42 is absent from the empty store. -/
theorem missing_package_asymmetry_witness :
    (calculate_total_price emptyStore 42 reqS reqE 1 true).1 =
      .error (notFoundMsg 42) ∧
    (is_package_available emptyStore 42 reqS reqE 1).1 =
      (false, notFoundMsg 42) :=
  missing_package_asymmetry emptyStore 42 1 reqS reqE true rfl

/-- C5: the overlap query returns exactly the package's bookings that are
not cancelled and satisfy the inclusive-overlap rule; hence cancelled and
non-intersecting bookings never count. -/
theorem overlap_query_membership (st : Store) (pid : Nat)
    (startD endD : Date) (b : Booking) :
    (b ∈ get_bookings_for_package st pid startD endD ↔
      b ∈ st.bookings ∧ b.package_id = pid ∧ b.status ≠ "cancelled" ∧
        startD.toOrdinal ≤ b.end_date.toOrdinal ∧
        b.start_date.toOrdinal ≤ endD.toOrdinal) ∧
    (b.status = "cancelled" → b ∉ get_bookings_for_package st pid startD endD) ∧
    (endD.toOrdinal < b.start_date.toOrdinal ∨
        b.end_date.toOrdinal < startD.toOrdinal →
      b ∉ get_bookings_for_package st pid startD endD) := by
  have hmem : b ∈ get_bookings_for_package st pid startD endD ↔
      b ∈ st.bookings ∧ b.package_id = pid ∧ b.status ≠ "cancelled" ∧
        startD.toOrdinal ≤ b.end_date.toOrdinal ∧
        b.start_date.toOrdinal ≤ endD.toOrdinal := by
    unfold get_bookings_for_package
    simp [List.mem_filter, Date.ble, and_assoc]
    tauto
  refine ⟨hmem, ?_, ?_⟩
  · intro hc hb
    exact ((hmem.mp hb).2.2.1) hc
  · intro hd hb
    have h := hmem.mp hb
    omega

/-- C5 witness: a cancelled booking and a booking ending on 2025-11-05 are
both excluded from the respective overlap queries. -/
theorem overlap_query_membership_witness :
    cancelledBooking ∉ get_bookings_for_package exStore3 1 reqS reqE ∧
    earlyBooking ∉
      get_bookings_for_package exStore3 1 ⟨2025, 11, 6⟩ ⟨2025, 11, 8⟩ :=
  ⟨(overlap_query_membership exStore3 1 reqS reqE cancelledBooking).2.1 rfl,
   (overlap_query_membership exStore3 1 ⟨2025, 11, 6⟩ ⟨2025, 11, 8⟩
      earlyBooking).2.2 (Or.inr (by decide))⟩

/-- C8: `get_dj_rate` is 150.00 when no settings row exists, and the row's
rate when one does. -/
theorem dj_rate_default (st : Store) :
    (st.settings = none → get_dj_rate st = 150) ∧
    (∀ r, st.settings = some r → get_dj_rate st = r) := by
  unfold get_dj_rate
  constructor
  · intro h
    rw [h]
  · intro r h
    rw [h]

/-- C8 witness: the default on an empty settings table and a set rate. -/
theorem dj_rate_default_witness :
    get_dj_rate emptyStore = 150 ∧
    get_dj_rate ⟨[], [], some 200⟩ = 200 :=
  ⟨(dj_rate_default emptyStore).1 rfl,
   (dj_rate_default ⟨[], [], some 200⟩).2 200 rfl⟩

/-- C1: for a package in stock range, availability is decided by
`remaining = stock − booked_qty`: unavailable with the counting detail
exactly when `qty > remaining`, available with the free-units detail
otherwise. -/
theorem availability_in_stock_decision (st : Store) (pid qty : Nat)
    (startD endD : Date) (pkg : Package)
    (hpkg : get_package st pid = some pkg) (hq : qty ≤ pkg.stock) :
    ((is_package_available st pid startD endD qty).1.1 = true ↔
      (qty : Int) ≤ (pkg.stock : Int) - (bookedQty st pid startD endD : Int)) ∧
    ((qty : Int) > (pkg.stock : Int) - (bookedQty st pid startD endD : Int) →
      (is_package_available st pid startD endD qty).1 =
        (false, notEnoughMsg pkg.name qty
          ((pkg.stock : Int) - (bookedQty st pid startD endD : Int))
          (bookedQty st pid startD endD) pkg.stock)) ∧
    ((qty : Int) ≤ (pkg.stock : Int) - (bookedQty st pid startD endD : Int) →
      (is_package_available st pid startD endD qty).1 =
        (true, availableMsg pkg.name
          ((pkg.stock : Int) - (bookedQty st pid startD endD : Int))
          pkg.stock)) := by
  have hnot : ¬ qty > pkg.stock := not_lt.mpr hq
  by_cases h : (qty : Int) > (pkg.stock : Int) - (bookedQty st pid startD endD : Int)
  · have hres : (is_package_available st pid startD endD qty).1 =
        (false, notEnoughMsg pkg.name qty
          ((pkg.stock : Int) - (bookedQty st pid startD endD : Int))
          (bookedQty st pid startD endD) pkg.stock) := by
      simp [is_package_available, hpkg, hnot, h]
    refine ⟨?_, fun _ => hres, fun hle => absurd hle (not_le.mpr h)⟩
    rw [hres]
    simp
    omega
  · have hres : (is_package_available st pid startD endD qty).1 =
        (true, availableMsg pkg.name
          ((pkg.stock : Int) - (bookedQty st pid startD endD : Int))
          pkg.stock) := by
      simp [is_package_available, hpkg, hnot, h]
    refine ⟨?_, fun hgt => absurd hgt h, fun _ => hres⟩
    rw [hres]
    simp
    omega

/-- C1 witness: stock 5, one fully overlapping non-cancelled booking of
quantity 3; requesting 2 is available, requesting 3 is not. -/
theorem availability_in_stock_decision_witness :
    (is_package_available exStore 1 reqS reqE 2).1.1 = true ∧
    (is_package_available exStore 1 reqS reqE 3).1.1 = false ∧
    bookedQty exStore 1 reqS reqE = 3 := by
  have h2 := availability_in_stock_decision exStore 1 2 reqS reqE exPkg rfl
    (by decide)
  have h3 := availability_in_stock_decision exStore 1 3 reqS reqE exPkg rfl
    (by decide)
  refine ⟨h2.1.mpr (by decide), ?_, by decide⟩
  exact congrArg Prod.fst (h3.2.1 (by decide))

/-- C3: with the package present, the total is
`daily_rate × days × qty` plus, only when `include_dj` is set,
`dj_rate × days × qty`, and the breakdown is exactly the seven-field
record with zero DJ fields when DJ is not requested. -/
theorem total_price_formula (st : Store) (pid qty : Nat) (startD endD : Date)
    (include_dj : Bool) (pkg : Package)
    (hpkg : get_package st pid = some pkg) :
    (calculate_total_price st pid startD endD qty include_dj).1 =
      .ok (pkg.daily_rate * ((rentalDaysOfDates startD endD : Int) : ℚ) *
             (qty : ℚ) +
           (if include_dj then get_dj_rate st else 0) *
             ((rentalDaysOfDates startD endD : Int) : ℚ) * (qty : ℚ),
           ⟨rentalDaysOfDates startD endD, pkg.daily_rate, qty,
            pkg.daily_rate * ((rentalDaysOfDates startD endD : Int) : ℚ) *
              (qty : ℚ),
            (if include_dj then get_dj_rate st else 0),
            (if include_dj then get_dj_rate st else 0) *
              ((rentalDaysOfDates startD endD : Int) : ℚ) * (qty : ℚ),
            pkg.daily_rate * ((rentalDaysOfDates startD endD : Int) : ℚ) *
              (qty : ℚ) +
            (if include_dj then get_dj_rate st else 0) *
              ((rentalDaysOfDates startD endD : Int) : ℚ) * (qty : ℚ)⟩) := by
  cases include_dj
  · simp [calculate_total_price, hpkg]
  · simp [calculate_total_price, hpkg]

/-- C3 witness: daily rate 75, 3 days, quantity 1, DJ rate 150 with
`include_dj`: total 675.00 with the spec's breakdown. -/
theorem total_price_formula_witness :
    (calculate_total_price store75 2 reqS reqE 1 true).1 =
      .ok (675, ⟨3, 75, 1, 225, 150, 450, 675⟩) := by
  have h := total_price_formula store75 2 1 reqS reqE true pkg75 rfl
  have hd : rentalDaysOfDates reqS reqE = 3 := by decide
  rw [h, hd]
  have hr : get_dj_rate store75 = 150 := rfl
  have hp : pkg75.daily_rate = 75 := rfl
  rw [hr, hp]
  norm_num [Breakdown.mk.injEq]

/-- C6: when the requested quantity exceeds total stock, the check returns
unavailable with the exceeds-stock detail and issues only the package
lookup, never the bookings query. -/
theorem stock_exceeded_short_circuit (st : Store) (pid qty : Nat)
    (startD endD : Date) (pkg : Package)
    (hpkg : get_package st pid = some pkg) (hq : qty > pkg.stock) :
    is_package_available st pid startD endD qty =
      ((false, exceedsStockMsg qty pkg.stock pkg.name),
       [DBOp.selectPackage pid]) ∧
    DBOp.selectBookings pid startD endD ∉
      (is_package_available st pid startD endD qty).2 := by
  have h1 : is_package_available st pid startD endD qty =
      ((false, exceedsStockMsg qty pkg.stock pkg.name),
       [DBOp.selectPackage pid]) := by
    simp [is_package_available, hpkg, hq]
  refine ⟨h1, ?_⟩
  rw [h1]
  simp

/-- C6 witness: requesting 6 of a package with stock 5. -/
theorem stock_exceeded_short_circuit_witness :
    is_package_available exStore 1 reqS reqE 6 =
      ((false, exceedsStockMsg 6 5 "PA System"), [DBOp.selectPackage 1]) ∧
    DBOp.selectBookings 1 reqS reqE ∉
      (is_package_available exStore 1 reqS reqE 6).2 :=
  stock_exceeded_short_circuit exStore 1 6 reqS reqE exPkg rfl (by decide)

/-- C9: the availability check only reads: replaying its operation trace
against the store leaves the store unchanged, and no traced operation is a
write, on every control path. -/
theorem availability_read_only (st : Store) (pid qty : Nat)
    (startD endD : Date) :
    runOps st (is_package_available st pid startD endD qty).2 = st ∧
    ∀ op ∈ (is_package_available st pid startD endD qty).2,
      op.isWrite = false := by
  unfold is_package_available
  cases hp : get_package st pid with
  | none => simp [runOps, DBOp.apply, DBOp.isWrite]
  | some pkg =>
    by_cases h1 : qty > pkg.stock
    · simp [h1, runOps, DBOp.apply, DBOp.isWrite]
    · by_cases h2 : (qty : Int) >
          (pkg.stock : Int) - (bookedQty st pid startD endD : Int)
      · simp [h1, h2, runOps, DBOp.apply, DBOp.isWrite]
      · simp [h1, h2, runOps, DBOp.apply, DBOp.isWrite]

/-- C9 witness: the read-only property at the example store, with the
package-lookup operation checked explicitly. -/
theorem availability_read_only_witness :
    runOps exStore (is_package_available exStore 1 reqS reqE 2).2 = exStore ∧
    (DBOp.selectPackage 1).isWrite = false :=
  ⟨(availability_read_only exStore 1 2 reqS reqE).1,
   (availability_read_only exStore 1 2 reqS reqE).2 (DBOp.selectPackage 1)
     (by decide)⟩

/-- C10: with `include_dj = false` the pricing call never issues the
settings read and returns exactly the base price with zero DJ fields; the
settings read is issued on the `include_dj = true` path. -/
theorem settings_read_only_with_dj (st : Store) (pid qty : Nat)
    (startD endD : Date) (pkg : Package) :
    DBOp.selectSettings ∉
      (calculate_total_price st pid startD endD qty false).2 ∧
    (get_package st pid = some pkg →
      (calculate_total_price st pid startD endD qty false).1 =
        .ok (pkg.daily_rate * ((rentalDaysOfDates startD endD : Int) : ℚ) *
               (qty : ℚ),
             ⟨rentalDaysOfDates startD endD, pkg.daily_rate, qty,
              pkg.daily_rate * ((rentalDaysOfDates startD endD : Int) : ℚ) *
                (qty : ℚ),
              0, 0,
              pkg.daily_rate * ((rentalDaysOfDates startD endD : Int) : ℚ) *
                (qty : ℚ)⟩)) ∧
    (get_package st pid = some pkg →
      DBOp.selectSettings ∈
        (calculate_total_price st pid startD endD qty true).2) := by
  refine ⟨?_, ?_, ?_⟩
  · unfold calculate_total_price
    cases hp : get_package st pid <;> simp
  · intro hp
    simp [calculate_total_price, hp]
  · intro hp
    simp [calculate_total_price, hp]

/-- C10 witness: pricing without DJ on the example store reads no settings;
pricing with DJ does. -/
theorem settings_read_only_with_dj_witness :
    DBOp.selectSettings ∉ (calculate_total_price store75 2 reqS reqE 1 false).2 ∧
    DBOp.selectSettings ∈ (calculate_total_price store75 2 reqS reqE 1 true).2 :=
  ⟨(settings_read_only_with_dj store75 2 1 reqS reqE pkg75).1,
   (settings_read_only_with_dj store75 2 1 reqS reqE pkg75).2.2 rfl⟩

/-- C7: the formatter emits the equipment line, the DJ line exactly when
`dj_price > 0`, and the total line, and every currency value is rendered
with exactly two decimal places. -/
theorem breakdown_formatting (b : Breakdown) :
    format_price_breakdown b =
      String.intercalate "\n"
        ([equipLine b] ++ (if b.dj_price > 0 then [djLine b] else []) ++
         [totalLine b]) ∧
    (b.dj_price > 0 →
      format_price_breakdown b =
        equipLine b ++ "\n" ++ djLine b ++ "\n" ++ totalLine b) ∧
    (¬ b.dj_price > 0 →
      format_price_breakdown b = equipLine b ++ "\n" ++ totalLine b) ∧
    (∀ q : ℚ, twoDecimalPlaces (fmt2 q)) := by
  refine ⟨?_, ?_, ?_, fmt2_twoDecimalPlaces⟩
  · by_cases h : b.dj_price > 0 <;> simp [format_price_breakdown, h]
  · intro h
    simp only [format_price_breakdown, if_pos h]
    rfl
  · intro h
    simp only [format_price_breakdown, if_neg h]
    rfl

/-- C7 witness: the DJ line is present for the 675.00 breakdown and absent
for the DJ-free 225.00 breakdown. -/
theorem breakdown_formatting_witness :
    format_price_breakdown ⟨3, 75, 1, 225, 150, 450, 675⟩ =
      equipLine ⟨3, 75, 1, 225, 150, 450, 675⟩ ++ "\n" ++
        djLine ⟨3, 75, 1, 225, 150, 450, 675⟩ ++ "\n" ++
        totalLine ⟨3, 75, 1, 225, 150, 450, 675⟩ ∧
    format_price_breakdown ⟨3, 75, 1, 225, 0, 0, 225⟩ =
      equipLine ⟨3, 75, 1, 225, 0, 0, 225⟩ ++ "\n" ++
        totalLine ⟨3, 75, 1, 225, 0, 0, 225⟩ :=
  ⟨(breakdown_formatting ⟨3, 75, 1, 225, 150, 450, 675⟩).2.1 (by norm_num),
   (breakdown_formatting ⟨3, 75, 1, 225, 0, 0, 225⟩).2.2.1 (by norm_num)⟩

end SoundHire
